import Mathlib

/-!
Verification of the testit mock-server gateway (Rust workspace with crates
`testit-lib` and `testit-daemon`).

The canonical request-routing engine lives in `testit-daemon/src/server.rs`
(actix-based); the configuration model in `testit-lib/src/config.rs`; the
error taxonomy in `testit-lib/src/error.rs`; test selection and daemon
startup in `testit-daemon/src/main.rs`.

The embedding is shallow: each Rust function becomes a Lean function over
Lean counterparts of the Rust structs.  Effects are made explicit:

* The third-party `regex` crate is abstracted as a `RegexEngine` record:
  `valid p` models `Regex::new(p).is_ok()`, `isMatch p h` models "the
  compiled pattern `p` matches anywhere in the haystack `h`" (the documented
  semantics of `Regex::is_match`), and `errText p` models the compile-error
  display text.  Control-flow theorems are proved for every engine; the
  concrete `literalRegexEngine` below instantiates it for the
  metacharacter-free patterns used in witnesses.
* Socket binds and TLS setup are abstracted as a `NetEnv` record of
  outcomes, one per effectful call in `server.rs`.
* The `std::thread::sleep` call in `handle_endpoint` is recorded in an
  explicit sleep trace, tagged with the kind of primitive used
  (thread-blocking vs asynchronous suspension).
-/

namespace Testit

/-- From `testit-lib/src/config.rs`: `HttpsConfiguration`. -/
structure HttpsConfiguration where
  server_certificate : String
  private_key : String
  https_port : Nat
deriving DecidableEq, Repr

/-- From `testit-lib/src/config.rs`: `RouteConfiguration`. -/
structure RouteConfiguration where
  endpoint : String
deriving DecidableEq, Repr

/-- From `testit-lib/src/config.rs`: `MockResponseConfiguration`.
The Rust `headers` field is a `HashMap<String, String>`; it is embedded as
its association list (the map's entries in iteration order). -/
structure MockResponseConfiguration where
  response : Option String
  status : Nat
  headers : List (String × String)
  delay : Nat
deriving DecidableEq, Repr

/-- From `testit-lib/src/config.rs`: `EndpointConfiguration`. -/
structure EndpointConfiguration where
  id : String
  endpoint : String
  method : String
  soap_action : Option String
  mock_response : Option MockResponseConfiguration
  route : Option RouteConfiguration
deriving DecidableEq, Repr

/-- From `testit-lib/src/config.rs`: `ServerConfiguration`. -/
structure ServerConfiguration where
  id : String
  name : String
  http_port : Option Nat
  endpoints : List EndpointConfiguration
  https_config : Option HttpsConfiguration
deriving DecidableEq, Repr

/-- From `testit-lib/src/config.rs`: `TestConfiguration`. -/
structure TestConfiguration where
  id : String
  name : String
  description : String
  servers : List ServerConfiguration
deriving DecidableEq, Repr

/-- From `testit-lib/src/config.rs`: `AppConfiguration`. -/
structure AppConfiguration where
  name : String
  description : String
  tests : List TestConfiguration
deriving DecidableEq, Repr

/-- From `testit-lib/src/error.rs`: `ApplicationError`. -/
inductive ApplicationError where
  | FileError (msg : String)
  | MissingId (msg : String)
  | CouldNotFindTest (msg : String)
  | ConfigurationError (msg : String)
  | ServerStartUpError (msg : String)
deriving DecidableEq, Repr

/-- From `testit-lib/src/error.rs`: the `Display` impl for
`ApplicationError` (what `err.to_string()` produces). -/
def ApplicationError.display : ApplicationError → String
  | .FileError msg => "File error: " ++ msg
  | .MissingId msg => "Missing id: " ++ msg
  | .CouldNotFindTest msg => "Could not find test: " ++ msg
  | .ConfigurationError msg => "Configuration error: " ++ msg
  | .ServerStartUpError msg => "Server start up error: " ++ msg

/-- The inbound request data consulted by the handler in
`testit-daemon/src/server.rs`: `req.uri().path()` and
`req.method().as_str()`. -/
structure HttpRequest where
  path : String
  method : String
deriving DecidableEq, Repr

/-- An HTTP response as assembled by the handler: status code, the headers
appended by `generate_mock_response`, and the body (`""` for
`ResponseBuilder::finish()`'s empty body). -/
structure HttpResponse where
  status : Nat
  headers : List (String × String)
  body : String
deriving DecidableEq, Repr

/-- `HttpResponse::NotImplemented().body("Not implemented")`. -/
def notImplementedResponse : HttpResponse :=
  { status := 501, headers := [], body := "Not implemented" }

/-- `HttpResponse::ServiceUnavailable().body(msg)`. -/
def serviceUnavailableResponse (msg : String) : HttpResponse :=
  { status := 503, headers := [], body := msg }

/-- Abstraction of the third-party `regex` crate as used by
`is_valid_endpoint`: `valid p` models `Regex::new(p).is_ok()`, `isMatch p h`
models `Regex::new(p).unwrap().is_match(h)` — true iff the pattern matches
anywhere within the haystack — and `errText p` models the display text of
the compile error when `valid p = false`. -/
structure RegexEngine where
  valid : String → Bool
  isMatch : String → String → Bool
  errText : String → String

/-- Substring occurrence test on character lists (helper for the concrete
regex-engine instance below). -/
def charsContain (needle : List Char) : List Char → Bool
  | [] => needle.isEmpty
  | c :: rest => needle.isPrefixOf (c :: rest) || charsContain needle rest

/-- Modelled from the `regex` crate's behavior on the pattern subset used in
the concrete witnesses: a metacharacter-free pattern compiles and matches as
a plain substring anywhere in the haystack; a pattern containing `(` is
taken as the representative compile failure (an unbalanced group such as
`"("` makes `Regex::new` return a parse error). -/
def literalRegexEngine : RegexEngine where
  valid p := !(p.data.contains '(')
  isMatch p h := charsContain p.data h.data
  errText _ := "regex parse error: unclosed group"

/-- From `testit-daemon/src/server.rs`: `is_valid_endpoint`.  Compiles the
endpoint's pattern (an error becomes `ApplicationError::ConfigurationError`
of the error text), then returns whether the pattern matches the request
path and the request method equals the endpoint method. -/
def is_valid_endpoint (E : RegexEngine) (request : HttpRequest)
    (endpoint : EndpointConfiguration) : Except ApplicationError Bool :=
  if E.valid endpoint.endpoint then
    .ok (E.isMatch endpoint.endpoint request.path && request.method == endpoint.method)
  else
    .error (.ConfigurationError (E.errText endpoint.endpoint))

/-- The kind of sleep primitive a handler invokes: `std::thread::sleep`
blocks the worker thread; `tokio::time::sleep` suspends the task without
occupying the worker. -/
inductive SleepKind where
  | threadBlocking
  | asyncSuspend
deriving DecidableEq, Repr

/-- One sleep performed while serving a request: the primitive used and the
duration in milliseconds. -/
structure SleepCall where
  kind : SleepKind
  millis : Nat
deriving DecidableEq, Repr

/-- From `testit-daemon/src/server.rs`: `StatusCode::from_u16` of the `http`
crate (via actix), which `generate_mock_response` calls on
`mock_response.status`: it accepts exactly the codes in `[100, 999]` and
otherwise errors with display text `"invalid status code"`. -/
def statusCodeFromU16 (status : Nat) : Except String Nat :=
  if 100 ≤ status ∧ status ≤ 999 then .ok status
  else .error "invalid status code"

/-- From `testit-daemon/src/server.rs`: `generate_mock_response`.  Validates
the status code (an error becomes `ApplicationError::ConfigurationError`),
appends every configured header in iteration order, and uses the configured
body, or an empty body when none is configured. -/
def generate_mock_response (mock_response : MockResponseConfiguration) :
    Except ApplicationError HttpResponse :=
  match statusCodeFromU16 mock_response.status with
  | .error err => .error (.ConfigurationError err)
  | .ok status =>
    match mock_response.response with
    | some response =>
        .ok { status := status, headers := mock_response.headers, body := response }
    | none =>
        .ok { status := status, headers := mock_response.headers, body := "" }

/-- From `testit-daemon/src/server.rs`: `handle_endpoint`.  When a mock
response is configured it first calls
`std::thread::sleep(Duration::from_millis(delay))` — recorded here as a
`threadBlocking` sleep in the trace — then builds the mock response;
otherwise it returns 501 "Not implemented".  The `route` field is never
read. -/
def handle_endpoint (endpoint : EndpointConfiguration) :
    List SleepCall × Except ApplicationError HttpResponse :=
  match endpoint.mock_response with
  | some mock_response =>
      ([{ kind := .threadBlocking, millis := mock_response.delay }],
        generate_mock_response mock_response)
  | none => ([], .ok notImplementedResponse)

/-- The `Ok(true)` arm of the scan loop in `request_handler`: the matched
endpoint is handled; `Ok(response)` is returned as-is, `Err` is logged and
becomes 501 "Not implemented". -/
def matched_endpoint_response (endpoint : EndpointConfiguration) :
    List SleepCall × HttpResponse :=
  match handle_endpoint endpoint with
  | (trace, .ok response) => (trace, response)
  | (trace, .error _) => (trace, notImplementedResponse)

/-- The endpoint-scanning loop of `request_handler` in
`testit-daemon/src/server.rs`, with the sleep trace threaded through. -/
def request_handler_scan (E : RegexEngine) (request : HttpRequest) :
    List EndpointConfiguration → List SleepCall × HttpResponse
  | [] => ([], notImplementedResponse)
  | endpoint :: rest =>
    match is_valid_endpoint E request endpoint with
    | .ok true => matched_endpoint_response endpoint
    | .ok false => request_handler_scan E request rest
    | .error err => ([], serviceUnavailableResponse err.display)

/-- From `testit-daemon/src/server.rs`: `request_handler`.  Scans the
server's endpoint list in declared order; the first endpoint the matcher
accepts is handled (`Err` from `handle_endpoint` is logged and mapped to 501
"Not implemented"); a matcher error short-circuits to 503 with the error
text; if no endpoint matches the response is 501 "Not implemented". -/
def request_handler (E : RegexEngine) (server_configuration : ServerConfiguration)
    (request : HttpRequest) : List SleepCall × HttpResponse :=
  request_handler_scan E request server_configuration.endpoints

/-- Abstraction of the effectful calls made during server startup in
`testit-daemon/src/server.rs`: the outcome of `HttpServer::bind` on a plain
port, of `HttpServer::bind_openssl` on a TLS port, and of the three
openssl-acceptor steps in `ssl_builder` (`mozilla_intermediate_v5`,
`set_private_key_file`, `set_certificate_chain_file`).  `.ok` means the call
succeeded; `.error msg` carries the library error's display text. -/
structure NetEnv where
  bindHttp : Nat → Except String Unit
  bindTls : Nat → Except String Unit
  mozillaAcceptor : Except String Unit
  setPrivateKeyFile : String → Except String Unit
  setCertificateChainFile : String → Except String Unit

/-- From `testit-daemon/src/server.rs`: `ssl_builder`.  Each openssl step's
error is wrapped as `ApplicationError::ServerStartUpError`; the first
failing step short-circuits. -/
def ssl_builder (env : NetEnv) (https_config : HttpsConfiguration) :
    Except ApplicationError Unit := do
  (env.mozillaAcceptor).mapError (fun err => .ServerStartUpError err)
  (env.setPrivateKeyFile https_config.private_key).mapError
    (fun err => .ServerStartUpError err)
  (env.setCertificateChainFile https_config.server_certificate).mapError
    (fun err => .ServerStartUpError err)

/-- From `testit-daemon/src/server.rs`: `AppServer::start_server_http`.
When no HTTP port is configured it does nothing and succeeds; otherwise the
bind outcome's error is wrapped as `ServerStartUpError`. -/
def start_server_http (env : NetEnv) (server_configuration : ServerConfiguration) :
    Except ApplicationError Unit :=
  match server_configuration.http_port with
  | none => .ok ()
  | some http_port =>
    (env.bindHttp http_port).mapError (fun err => .ServerStartUpError err)

/-- From `testit-daemon/src/server.rs`: `AppServer::start_server_https`.
When no HTTPS configuration is present it does nothing and succeeds;
otherwise it builds the SSL acceptor and then binds the TLS port, wrapping a
bind error as `ServerStartUpError`. -/
def start_server_https (env : NetEnv) (server_configuration : ServerConfiguration) :
    Except ApplicationError Unit :=
  match server_configuration.https_config with
  | none => .ok ()
  | some https_config => do
    ssl_builder env https_config
    (env.bindTls https_config.https_port).mapError
      (fun err => .ServerStartUpError err)

/-- From `testit-daemon/src/server.rs`: the loop body of
`ServerSetup::start_servers` for one server: `start_server_http(...)?` then
`start_server_https(...)?`. -/
def start_one_server (env : NetEnv) (server : ServerConfiguration) :
    Except ApplicationError Unit := do
  start_server_http env server
  start_server_https env server

/-- From `testit-daemon/src/server.rs`: `ServerSetup::start_servers`.  Walks
the loaded servers in order; each `?` propagates the first failure
immediately. -/
def start_servers (env : NetEnv) : List ServerConfiguration → Except ApplicationError Unit
  | [] => .ok ()
  | server :: rest => do
    start_one_server env server
    start_servers env rest

/-- From `testit-daemon/src/main.rs`: `get_test`.  Finds the first test
whose `id` equals the supplied id; absence is a `CouldNotFindTest` error. -/
def get_test (id : String) (config : AppConfiguration) :
    Except ApplicationError TestConfiguration :=
  match config.tests.find? (fun test => test.id == id) with
  | some test => .ok test
  | none => .error (.CouldNotFindTest ("No test with id: " ++ id))

/-- From `testit-daemon/src/main.rs`: `start_daemon`.  A missing id is a
`MissingId` error; then the test is selected by id; only then are the
listeners created (`setup_test`) and started (`start_servers`, whose error
is re-wrapped as `ServerStartUpError` of its display text). -/
def start_daemon (env : NetEnv) (id : Option String) (config : AppConfiguration) :
    Except ApplicationError Unit :=
  match id with
  | none => .error (.MissingId "Missing id")
  | some id => do
    let test ← get_test id config
    (start_servers env test.servers).mapError
      (fun err => .ServerStartUpError err.display)

/-- JSON values, the target of `serde_json`.  Numbers are restricted to the
naturals, which covers every numeric field of the configuration model
(`u16` ports and status, `u64` delay). -/
inductive Json where
  | str (s : String)
  | num (n : Nat)
  | null
  | arr (elems : List Json)
  | obj (fields : List (String × Json))

/-- Field access on a JSON object (serde looks fields up by name). -/
def Json.getField (j : Json) (key : String) : Option Json :=
  match j with
  | .obj fields => fields.lookup key
  | _ => none

/-- serde serialization of an `Option<String>` field: `None` becomes
`null`. -/
def optStrToJson : Option String → Json
  | some s => .str s
  | none => .null

/-- serde deserialization of an `Option<String>` field. -/
def optStrFromJson : Json → Option (Option String)
  | .str s => some (some s)
  | .null => some none
  | _ => none

/-- serde serialization of an `Option<u16>` field: `None` becomes `null`. -/
def optNumToJson : Option Nat → Json
  | some n => .num n
  | none => .null

/-- serde deserialization of an `Option<u16>` field. -/
def optNumFromJson : Json → Option (Option Nat)
  | .num n => some (some n)
  | .null => some none
  | _ => none

/-- serde serialization of the `HashMap<String, String>` headers field: a
JSON object with one member per entry, in iteration order. -/
def headersToJson (headers : List (String × String)) : Json :=
  .obj (headers.map (fun kv => (kv.1, .str kv.2)))

/-- serde deserialization of the headers map: every member value must be a
string. -/
def headersFromJson : Json → Option (List (String × String))
  | .obj fields => headersEntries fields
  | _ => none
where
  headersEntries : List (String × Json) → Option (List (String × String))
    | [] => some []
    | (key, .str value) :: rest => do
        let tail ← headersEntries rest
        pure ((key, value) :: tail)
    | _ :: _ => none

/-- Deserialize every element of a JSON array (serde's `Vec<T>`
deserialization: each element must deserialize, in order). -/
def jsonList {α : Type} (fromJson : Json → Option α) : List Json → Option (List α)
  | [] => some []
  | j :: rest => do
    let head ← fromJson j
    let tail ← jsonList fromJson rest
    pure (head :: tail)

/-- serde serialization of `HttpsConfiguration` (camelCase field names). -/
def httpsToJson (c : HttpsConfiguration) : Json :=
  .obj [("serverCertificate", .str c.server_certificate),
        ("privateKey", .str c.private_key),
        ("httpsPort", .num c.https_port)]

/-- serde deserialization of `HttpsConfiguration`. -/
def httpsFromJson (j : Json) : Option HttpsConfiguration := do
  let .str server_certificate ← j.getField "serverCertificate" | none
  let .str private_key ← j.getField "privateKey" | none
  let .num https_port ← j.getField "httpsPort" | none
  pure { server_certificate, private_key, https_port }

/-- serde serialization of an `Option<HttpsConfiguration>` field. -/
def optHttpsToJson : Option HttpsConfiguration → Json
  | some c => httpsToJson c
  | none => .null

/-- serde deserialization of an `Option<HttpsConfiguration>` field. -/
def optHttpsFromJson : Json → Option (Option HttpsConfiguration)
  | .null => some none
  | j => do
    let c ← httpsFromJson j
    pure (some c)

/-- serde serialization of `RouteConfiguration`. -/
def routeToJson (c : RouteConfiguration) : Json :=
  .obj [("endpoint", .str c.endpoint)]

/-- serde deserialization of `RouteConfiguration`. -/
def routeFromJson (j : Json) : Option RouteConfiguration := do
  let .str endpoint ← j.getField "endpoint" | none
  pure { endpoint }

/-- serde serialization of an `Option<RouteConfiguration>` field. -/
def optRouteToJson : Option RouteConfiguration → Json
  | some c => routeToJson c
  | none => .null

/-- serde deserialization of an `Option<RouteConfiguration>` field. -/
def optRouteFromJson : Json → Option (Option RouteConfiguration)
  | .null => some none
  | j => do
    let c ← routeFromJson j
    pure (some c)

/-- serde serialization of `MockResponseConfiguration` (camelCase). -/
def mockToJson (c : MockResponseConfiguration) : Json :=
  .obj [("response", optStrToJson c.response),
        ("status", .num c.status),
        ("headers", headersToJson c.headers),
        ("delay", .num c.delay)]

/-- serde deserialization of `MockResponseConfiguration`. -/
def mockFromJson (j : Json) : Option MockResponseConfiguration := do
  let responseField ← j.getField "response"
  let response ← optStrFromJson responseField
  let .num status ← j.getField "status" | none
  let headersField ← j.getField "headers"
  let headers ← headersFromJson headersField
  let .num delay ← j.getField "delay" | none
  pure { response, status, headers, delay }

/-- serde serialization of an `Option<MockResponseConfiguration>` field. -/
def optMockToJson : Option MockResponseConfiguration → Json
  | some c => mockToJson c
  | none => .null

/-- serde deserialization of an `Option<MockResponseConfiguration>`
field. -/
def optMockFromJson : Json → Option (Option MockResponseConfiguration)
  | .null => some none
  | j => do
    let c ← mockFromJson j
    pure (some c)

/-- serde serialization of `EndpointConfiguration` (camelCase). -/
def endpointToJson (c : EndpointConfiguration) : Json :=
  .obj [("id", .str c.id),
        ("endpoint", .str c.endpoint),
        ("method", .str c.method),
        ("soapAction", optStrToJson c.soap_action),
        ("mockResponse", optMockToJson c.mock_response),
        ("route", optRouteToJson c.route)]

/-- serde deserialization of `EndpointConfiguration`. -/
def endpointFromJson (j : Json) : Option EndpointConfiguration := do
  let .str id ← j.getField "id" | none
  let .str endpoint ← j.getField "endpoint" | none
  let .str method ← j.getField "method" | none
  let soapField ← j.getField "soapAction"
  let soap_action ← optStrFromJson soapField
  let mockField ← j.getField "mockResponse"
  let mock_response ← optMockFromJson mockField
  let routeField ← j.getField "route"
  let route ← optRouteFromJson routeField
  pure { id, endpoint, method, soap_action, mock_response, route }

/-- serde serialization of `ServerConfiguration` (camelCase). -/
def serverToJson (c : ServerConfiguration) : Json :=
  .obj [("id", .str c.id),
        ("name", .str c.name),
        ("httpPort", optNumToJson c.http_port),
        ("endpoints", .arr (c.endpoints.map endpointToJson)),
        ("httpsConfig", optHttpsToJson c.https_config)]

/-- serde deserialization of `ServerConfiguration`. -/
def serverFromJson (j : Json) : Option ServerConfiguration := do
  let .str id ← j.getField "id" | none
  let .str name ← j.getField "name" | none
  let portField ← j.getField "httpPort"
  let http_port ← optNumFromJson portField
  let .arr endpointsField ← j.getField "endpoints" | none
  let endpoints ← jsonList endpointFromJson endpointsField
  let httpsField ← j.getField "httpsConfig"
  let https_config ← optHttpsFromJson httpsField
  pure { id, name, http_port, endpoints, https_config }

/-- serde serialization of `TestConfiguration` (camelCase). -/
def testToJson (c : TestConfiguration) : Json :=
  .obj [("id", .str c.id),
        ("name", .str c.name),
        ("description", .str c.description),
        ("servers", .arr (c.servers.map serverToJson))]

/-- serde deserialization of `TestConfiguration`. -/
def testFromJson (j : Json) : Option TestConfiguration := do
  let .str id ← j.getField "id" | none
  let .str name ← j.getField "name" | none
  let .str description ← j.getField "description" | none
  let .arr serversField ← j.getField "servers" | none
  let servers ← jsonList serverFromJson serversField
  pure { id, name, description, servers }

/-- serde serialization of `AppConfiguration` (camelCase), the JSON value
written by `AppConfiguration::save`. -/
def appToJson (c : AppConfiguration) : Json :=
  .obj [("name", .str c.name),
        ("description", .str c.description),
        ("tests", .arr (c.tests.map testToJson))]

/-- serde deserialization of `AppConfiguration`, the parse performed by
`AppConfiguration::load`. -/
def appFromJson (j : Json) : Option AppConfiguration := do
  let .str name ← j.getField "name" | none
  let .str description ← j.getField "description" | none
  let .arr testsField ← j.getField "tests" | none
  let tests ← jsonList testFromJson testsField
  pure { name, description, tests }

@[simp]
theorem optStrToJson_roundtrip (o : Option String) :
    optStrFromJson (optStrToJson o) = some o := by
  cases o <;> rfl

@[simp]
theorem optNumToJson_roundtrip (o : Option Nat) :
    optNumFromJson (optNumToJson o) = some o := by
  cases o <;> rfl

@[simp]
theorem headersToJson_roundtrip (headers : List (String × String)) :
    headersFromJson (headersToJson headers) = some headers := by
  induction headers with
  | nil => rfl
  | cons kv rest ih =>
    obtain ⟨key, value⟩ := kv
    simp only [headersToJson, headersFromJson] at ih ⊢
    simp [headersFromJson.headersEntries, ih]

@[simp]
theorem httpsToJson_roundtrip (c : HttpsConfiguration) :
    httpsFromJson (httpsToJson c) = some c := rfl

@[simp]
theorem optHttpsToJson_roundtrip (o : Option HttpsConfiguration) :
    optHttpsFromJson (optHttpsToJson o) = some o := by
  cases o <;> rfl

@[simp]
theorem routeToJson_roundtrip (c : RouteConfiguration) :
    routeFromJson (routeToJson c) = some c := rfl

@[simp]
theorem optRouteToJson_roundtrip (o : Option RouteConfiguration) :
    optRouteFromJson (optRouteToJson o) = some o := by
  cases o <;> rfl

@[simp]
theorem mockToJson_roundtrip (c : MockResponseConfiguration) :
    mockFromJson (mockToJson c) = some c := by
  simp [mockToJson, mockFromJson, Json.getField, List.lookup]

@[simp]
theorem optMockToJson_roundtrip (o : Option MockResponseConfiguration) :
    optMockFromJson (optMockToJson o) = some o := by
  cases o with
  | none => rfl
  | some c =>
    have hdef : optMockFromJson (optMockToJson (some c))
        = (mockFromJson (mockToJson c)).bind (fun x => some (some x)) := rfl
    rw [hdef, mockToJson_roundtrip]
    rfl

theorem jsonList_roundtrip {α : Type} (fromJson : Json → Option α) (toJson : α → Json)
    (h : ∀ x, fromJson (toJson x) = some x) (l : List α) :
    jsonList fromJson (l.map toJson) = some l := by
  induction l with
  | nil => rfl
  | cons x rest ih => simp [jsonList, h, ih]

@[simp]
theorem endpointToJson_roundtrip (c : EndpointConfiguration) :
    endpointFromJson (endpointToJson c) = some c := by
  simp [endpointToJson, endpointFromJson, Json.getField, List.lookup]

@[simp]
theorem serverToJson_roundtrip (c : ServerConfiguration) :
    serverFromJson (serverToJson c) = some c := by
  simp [serverToJson, serverFromJson, Json.getField, List.lookup,
    jsonList_roundtrip endpointFromJson endpointToJson endpointToJson_roundtrip]

@[simp]
theorem testToJson_roundtrip (c : TestConfiguration) :
    testFromJson (testToJson c) = some c := by
  simp [testToJson, testFromJson, Json.getField, List.lookup,
    jsonList_roundtrip serverFromJson serverToJson serverToJson_roundtrip]

/-- C6: for every `AppConfiguration` value, serializing it to JSON and then
deserializing the result yields a value equal to the original; in
particular every `id` field of every test, server and endpoint is the one
already stored in the structure (serialization reads the fields, never
regenerates them), so ids survive the round trip unchanged. -/
theorem appConfiguration_json_roundtrip (c : AppConfiguration) :
    appFromJson (appToJson c) = some c := by
  simp [appToJson, appFromJson, Json.getField, List.lookup,
    jsonList_roundtrip testFromJson testToJson testToJson_roundtrip]

theorem request_handler_scan_cons_true {E : RegexEngine} {request : HttpRequest}
    {endpoint : EndpointConfiguration} (rest : List EndpointConfiguration)
    (h : is_valid_endpoint E request endpoint = .ok true) :
    request_handler_scan E request (endpoint :: rest) =
      matched_endpoint_response endpoint := by
  simp [request_handler_scan, h]

theorem request_handler_scan_cons_false {E : RegexEngine} {request : HttpRequest}
    {endpoint : EndpointConfiguration} (rest : List EndpointConfiguration)
    (h : is_valid_endpoint E request endpoint = .ok false) :
    request_handler_scan E request (endpoint :: rest) =
      request_handler_scan E request rest := by
  simp [request_handler_scan, h]

theorem request_handler_scan_cons_error {E : RegexEngine} {request : HttpRequest}
    {endpoint : EndpointConfiguration} {err : ApplicationError}
    (rest : List EndpointConfiguration)
    (h : is_valid_endpoint E request endpoint = .error err) :
    request_handler_scan E request (endpoint :: rest) =
      ([], serviceUnavailableResponse err.display) := by
  simp [request_handler_scan, h]

/-- Endpoints the matcher rejects are skipped: scanning `pre ++ l` when
every endpoint of `pre` gets `Ok(false)` is scanning `l`. -/
theorem request_handler_scan_skip {E : RegexEngine} {request : HttpRequest}
    (pre l : List EndpointConfiguration)
    (hpre : ∀ e ∈ pre, is_valid_endpoint E request e = .ok false) :
    request_handler_scan E request (pre ++ l) = request_handler_scan E request l := by
  induction pre with
  | nil => rfl
  | cons e rest ih =>
    rw [List.cons_append,
      request_handler_scan_cons_false _ (hpre e (List.mem_cons_self e rest))]
    exact ih (fun x hx => hpre x (List.mem_cons_of_mem e hx))

/-- C1: for every server configuration and inbound request, the handler
scans the endpoint list in declared order and answers from the first
endpoint the matcher accepts; whatever comes after that endpoint (including
endpoints that would also match) never influences the response. -/
theorem request_handler_first_match (E : RegexEngine) (request : HttpRequest)
    (pre : List EndpointConfiguration) (ep : EndpointConfiguration)
    (hpre : ∀ e ∈ pre, is_valid_endpoint E request e = .ok false)
    (hep : is_valid_endpoint E request ep = .ok true) :
    ∀ (post : List EndpointConfiguration) (cfg : ServerConfiguration),
      cfg.endpoints = pre ++ ep :: post →
      request_handler E cfg request = matched_endpoint_response ep := by
  intro post cfg hcfg
  rw [request_handler, hcfg, request_handler_scan_skip pre _ hpre,
    request_handler_scan_cons_true post hep]

/-- C2: for every request and endpoint whose path-pattern compiles, the
matcher accepts exactly when the pattern matches anywhere within the
request's path (the `is_match` semantics captured by `RegexEngine.isMatch`)
and the request's method string equals the endpoint's method string as a
plain string comparison (no case folding). -/
theorem is_valid_endpoint_iff (E : RegexEngine) (request : HttpRequest)
    (ep : EndpointConfiguration) (hvalid : E.valid ep.endpoint = true) :
    is_valid_endpoint E request ep = .ok true ↔
      (E.isMatch ep.endpoint request.path = true ∧ request.method = ep.method) := by
  rw [is_valid_endpoint, if_pos hvalid]
  simp [Bool.and_eq_true]

/-- C3: when the scan reaches an endpoint whose path-pattern does not
compile, the matcher reports it as an `Err` value (a
`ConfigurationError`, not a panic) and the handler answers 503 with the
error's display text as the body, never evaluating any endpoint after the
failing one. -/
theorem request_handler_invalid_pattern (E : RegexEngine) (request : HttpRequest)
    (pre : List EndpointConfiguration) (bad : EndpointConfiguration)
    (hpre : ∀ e ∈ pre, is_valid_endpoint E request e = .ok false)
    (hbad : E.valid bad.endpoint = false) :
    is_valid_endpoint E request bad =
      .error (.ConfigurationError (E.errText bad.endpoint)) ∧
    ∀ (post : List EndpointConfiguration) (cfg : ServerConfiguration),
      cfg.endpoints = pre ++ bad :: post →
      request_handler E cfg request =
        ([], serviceUnavailableResponse
          ("Configuration error: " ++ E.errText bad.endpoint)) := by
  have herr : is_valid_endpoint E request bad =
      .error (.ConfigurationError (E.errText bad.endpoint)) := by
    rw [is_valid_endpoint, if_neg (by simp [hbad])]
  refine ⟨herr, ?_⟩
  intro post cfg hcfg
  rw [request_handler, hcfg, request_handler_scan_skip pre _ hpre,
    request_handler_scan_cons_error post herr]
  rfl

/-- The trace component of `matched_endpoint_response` is the trace of
`handle_endpoint`, whichever way response building went. -/
theorem matched_endpoint_response_fst (endpoint : EndpointConfiguration) :
    (matched_endpoint_response endpoint).1 = (handle_endpoint endpoint).1 := by
  rw [matched_endpoint_response]
  rcases h : handle_endpoint endpoint with ⟨trace, result⟩
  cases result <;> simp

/-- A mock response whose status code `StatusCode::from_u16` rejects makes
`generate_mock_response` fail with `ConfigurationError`. -/
theorem generate_mock_response_invalid_status (mock : MockResponseConfiguration)
    (hstatus : ¬(100 ≤ mock.status ∧ mock.status ≤ 999)) :
    generate_mock_response mock = .error (.ConfigurationError "invalid status code") := by
  rw [generate_mock_response, statusCodeFromU16, if_neg hstatus]

/-- Concrete data for the invalid-status scenario: a matched endpoint whose
mock response carries status 99 (rejected by `StatusCode::from_u16`). -/
def invalidStatusMock : MockResponseConfiguration :=
  { response := some "body", status := 99, headers := [], delay := 0 }

/-- Endpoint carrying `invalidStatusMock`, pattern `/test`, method GET. -/
def invalidStatusEndpoint : EndpointConfiguration :=
  { id := "ep-invalid-status", endpoint := "/test", method := "GET",
    soap_action := none, mock_response := some invalidStatusMock, route := none }

/-- Server whose only endpoint is `invalidStatusEndpoint`. -/
def invalidStatusServer : ServerConfiguration :=
  { id := "srv-invalid-status", name := "srv", http_port := some 8080,
    endpoints := [invalidStatusEndpoint], https_config := none }

/-- The request that matches `invalidStatusEndpoint`. -/
def invalidStatusRequest : HttpRequest := { path := "/test", method := "GET" }

/-- C4 counterexample: a request matching an endpoint whose mock response
has the out-of-range status 99 is answered with status 501 and body "Not
implemented" — not with any 503-class response, contrary to the claim.
(The configuration error itself does exist: `generate_mock_response`
fails.) -/
theorem invalid_status_gives_501_not_503 :
    generate_mock_response invalidStatusMock =
      .error (.ConfigurationError "invalid status code") ∧
    request_handler literalRegexEngine invalidStatusServer invalidStatusRequest =
      ([{ kind := .threadBlocking, millis := 0 }], notImplementedResponse) ∧
    (request_handler literalRegexEngine invalidStatusServer invalidStatusRequest).2.status
      = 501 ∧
    ¬ (request_handler literalRegexEngine invalidStatusServer invalidStatusRequest).2.status
      = 503 :=
  ⟨rfl, rfl, rfl, by decide⟩

/-- C4 (amended): a request matching an endpoint whose mock response
carries an out-of-range status code makes response building fail with a
configuration error, and the handler surfaces it as HTTP 501 with body
"Not implemented" for that single request — an ordinary error value mapped
to a response, so the listener neither panics nor aborts. -/
theorem request_handler_invalid_status (E : RegexEngine) (request : HttpRequest)
    (pre : List EndpointConfiguration) (ep : EndpointConfiguration)
    (mock : MockResponseConfiguration)
    (hpre : ∀ e ∈ pre, is_valid_endpoint E request e = .ok false)
    (hep : is_valid_endpoint E request ep = .ok true)
    (hmock : ep.mock_response = some mock)
    (hstatus : ¬(100 ≤ mock.status ∧ mock.status ≤ 999)) :
    generate_mock_response mock = .error (.ConfigurationError "invalid status code") ∧
    ∀ (post : List EndpointConfiguration) (cfg : ServerConfiguration),
      cfg.endpoints = pre ++ ep :: post →
      (request_handler E cfg request).2 = notImplementedResponse := by
  have hgen := generate_mock_response_invalid_status mock hstatus
  refine ⟨hgen, ?_⟩
  intro post cfg hcfg
  rw [request_handler, hcfg, request_handler_scan_skip pre _ hpre,
    request_handler_scan_cons_true post hep, matched_endpoint_response,
    handle_endpoint, hmock]
  simp [hgen]

/-- C5: a request matching no endpoint at all, and likewise a request whose
first matching endpoint has neither a mock response nor a route, is
answered with exactly status 501 and body "Not implemented". -/
theorem request_handler_501_fallbacks (E : RegexEngine) (request : HttpRequest) :
    (∀ cfg : ServerConfiguration,
      (∀ e ∈ cfg.endpoints, is_valid_endpoint E request e = .ok false) →
      request_handler E cfg request = ([], notImplementedResponse)) ∧
    (∀ (pre : List EndpointConfiguration) (ep : EndpointConfiguration),
      (∀ e ∈ pre, is_valid_endpoint E request e = .ok false) →
      is_valid_endpoint E request ep = .ok true →
      ep.mock_response = none → ep.route = none →
      ∀ (post : List EndpointConfiguration) (cfg : ServerConfiguration),
        cfg.endpoints = pre ++ ep :: post →
        request_handler E cfg request = ([], notImplementedResponse)) := by
  constructor
  · intro cfg hall
    rw [request_handler, ← List.append_nil cfg.endpoints,
      request_handler_scan_skip cfg.endpoints [] hall]
    rfl
  · intro pre ep hpre hep hmock _hroute post cfg hcfg
    rw [request_handler, hcfg, request_handler_scan_skip pre _ hpre,
      request_handler_scan_cons_true post hep, matched_endpoint_response,
      handle_endpoint, hmock]

/-- C10: `handle_endpoint` never reads the `route` field, so a first
matching endpoint that has a route but no mock response is answered exactly
like one with neither: HTTP 501, body "Not implemented". -/
theorem request_handler_route_never_consulted (E : RegexEngine) (request : HttpRequest)
    (pre : List EndpointConfiguration) (ep : EndpointConfiguration)
    (r : RouteConfiguration)
    (hpre : ∀ e ∈ pre, is_valid_endpoint E request e = .ok false)
    (hep : is_valid_endpoint E request ep = .ok true)
    (hmock : ep.mock_response = none) (_hroute : ep.route = some r) :
    (∀ (ep2 : EndpointConfiguration) (r2 : Option RouteConfiguration),
      handle_endpoint { ep2 with route := r2 } = handle_endpoint ep2) ∧
    ∀ (post : List EndpointConfiguration) (cfg : ServerConfiguration),
      cfg.endpoints = pre ++ ep :: post →
      request_handler E cfg request = ([], notImplementedResponse) := by
  constructor
  · intro ep2 r2
    obtain ⟨i2, e2, m2, sa2, mr2, rt2⟩ := ep2
    cases mr2 <;> rfl
  · intro post cfg hcfg
    rw [request_handler, hcfg, request_handler_scan_skip pre _ hpre,
      request_handler_scan_cons_true post hep, matched_endpoint_response,
      handle_endpoint, hmock]

/-- C9: the per-request delay of a matched mock response is implemented
with `std::thread::sleep`, i.e. the handler's sleep trace for such an
endpoint is exactly one thread-blocking sleep of `delay` milliseconds —
not an asynchronous suspension.  (This contradicts the claim that the
worker remains available during the delay; see the code-bug record.) -/
theorem handle_endpoint_blocking_sleep (ep : EndpointConfiguration)
    (mock : MockResponseConfiguration) (hmock : ep.mock_response = some mock) :
    (handle_endpoint ep).1 =
      [{ kind := SleepKind.threadBlocking, millis := mock.delay }] ∧
    (∀ E request pre post cfg, cfg.endpoints = pre ++ ep :: post →
      (∀ e ∈ pre, is_valid_endpoint E request e = .ok false) →
      is_valid_endpoint E request ep = .ok true →
      (request_handler E cfg request).1 =
        [{ kind := SleepKind.threadBlocking, millis := mock.delay }]) := by
  have htrace : (handle_endpoint ep).1 =
      [{ kind := SleepKind.threadBlocking, millis := mock.delay }] := by
    rw [handle_endpoint, hmock]
  refine ⟨htrace, ?_⟩
  intro E request pre post cfg hcfg hpre hep
  rw [request_handler, hcfg, request_handler_scan_skip pre _ hpre,
    request_handler_scan_cons_true post hep, matched_endpoint_response_fst, htrace]

/-- Servers that start cleanly are passed over: starting `pre ++ l` when
every server of `pre` starts with `Ok` is starting `l`. -/
theorem start_servers_skip (env : NetEnv) (pre l : List ServerConfiguration)
    (hpre : ∀ s ∈ pre, start_one_server env s = .ok ()) :
    start_servers env (pre ++ l) = start_servers env l := by
  induction pre with
  | nil => rfl
  | cons s rest ih =>
    rw [List.cons_append, start_servers, hpre s (List.mem_cons_self s rest)]
    exact ih (fun t ht => hpre t (List.mem_cons_of_mem s ht))

/-- C7: `start_servers` walks the loaded listeners in order, attempting for
each first the HTTP bind and then the TLS bind; a start operation whose
configuration field is absent is a no-op returning success; the first bind
or TLS-setup failure becomes the immediate result of `start_servers`
regardless of what comes after (fail-fast, no silent partial success); and
when every listener starts cleanly the overall result is success. -/
theorem start_servers_fail_fast (env : NetEnv) :
    (∀ cfg : ServerConfiguration, cfg.http_port = none →
      start_server_http env cfg = .ok ()) ∧
    (∀ cfg : ServerConfiguration, cfg.https_config = none →
      start_server_https env cfg = .ok ()) ∧
    (∀ (s : ServerConfiguration) (e : ApplicationError),
      start_server_http env s = .error e → start_one_server env s = .error e) ∧
    (∀ s : ServerConfiguration, start_server_http env s = .ok () →
      start_one_server env s = start_server_https env s) ∧
    (∀ (pre : List ServerConfiguration) (s : ServerConfiguration)
        (post : List ServerConfiguration) (e : ApplicationError),
      (∀ t ∈ pre, start_one_server env t = .ok ()) →
      start_one_server env s = .error e →
      start_servers env (pre ++ s :: post) = .error e) ∧
    (∀ servers : List ServerConfiguration,
      (∀ t ∈ servers, start_one_server env t = .ok ()) →
      start_servers env servers = .ok ()) := by
  refine ⟨?_, ?_, ?_, ?_, ?_, ?_⟩
  · intro cfg h
    rw [start_server_http, h]
  · intro cfg h
    rw [start_server_https, h]
  · intro s e h
    rw [start_one_server, h]
    rfl
  · intro s h
    rw [start_one_server, h]
    rcases start_server_https env s with e | u
    · rfl
    · rfl
  · intro pre s post e hpre hs
    rw [start_servers_skip env pre _ hpre, start_servers, hs]
    rfl
  · intro servers hall
    rw [← List.append_nil servers, start_servers_skip env servers [] hall]
    rfl

/-- `List.find?` returns the head of the first-match decomposition. -/
theorem find_first_match {α : Type} (p : α → Bool) (pre : List α) (x : α)
    (post : List α) (hpre : ∀ u ∈ pre, p u = false) (hx : p x = true) :
    (pre ++ x :: post).find? p = some x := by
  induction pre with
  | nil => simp [List.find?, hx]
  | cons u rest ih =>
    rw [List.cons_append, List.find?]
    rw [hpre u (List.mem_cons_self u rest)]
    exact ih (fun v hv => hpre v (List.mem_cons_of_mem u hv))

/-- C8: with no supplied id the daemon fails with `MissingId`; with an id
matching no test it fails with `CouldNotFindTest` without consulting the
network environment at all (no listener is created or started); and with an
id whose first match in the scan order is `t`, `get_test` selects exactly
`t` and the daemon proceeds to start `t`'s servers. -/
theorem start_daemon_selection (env env2 : NetEnv) (config : AppConfiguration) :
    (start_daemon env none config = .error (.MissingId "Missing id")) ∧
    (∀ id : String, (∀ t ∈ config.tests, (t.id == id) = false) →
      get_test id config = .error (.CouldNotFindTest ("No test with id: " ++ id)) ∧
      start_daemon env (some id) config =
        .error (.CouldNotFindTest ("No test with id: " ++ id)) ∧
      start_daemon env (some id) config = start_daemon env2 (some id) config) ∧
    (∀ (id : String) (pre : List TestConfiguration) (t : TestConfiguration)
        (post : List TestConfiguration),
      config.tests = pre ++ t :: post →
      (∀ u ∈ pre, (u.id == id) = false) → (t.id == id) = true →
      get_test id config = .ok t ∧
      start_daemon env (some id) config =
        (start_servers env t.servers).mapError
          (fun err => .ServerStartUpError err.display)) := by
  refine ⟨rfl, ?_, ?_⟩
  · intro id hnone
    have hfind : config.tests.find? (fun test => test.id == id) = none := by
      rw [List.find?_eq_none]
      intro t ht
      simp [hnone t ht]
    have hget : get_test id config =
        .error (.CouldNotFindTest ("No test with id: " ++ id)) := by
      rw [get_test, hfind]
    refine ⟨hget, ?_, ?_⟩
    · rw [start_daemon, hget]
      rfl
    · rw [start_daemon, start_daemon, hget]
      rfl
  · intro id pre t post hdecomp hpre ht
    have hget : get_test id config = .ok t := by
      rw [get_test, hdecomp, find_first_match (fun test => test.id == id) pre t post hpre ht]
    refine ⟨hget, ?_⟩
    rw [start_daemon, hget]
    rfl

deriving instance DecidableEq for Except

/-- Witness fixture: endpoint whose pattern matches nothing below. -/
def epNoMatch : EndpointConfiguration :=
  { id := "ep-nomatch", endpoint := "/zzz", method := "GET",
    soap_action := none, mock_response := none, route := none }

/-- Witness fixture: mock response 200 `{}` with a 1000 ms delay. -/
def mockW : MockResponseConfiguration :=
  { response := some "{}", status := 200,
    headers := [("content-type", "application/json")], delay := 1000 }

/-- Witness fixture: matching endpoint serving `mockW`. -/
def epMatch : EndpointConfiguration :=
  { id := "ep-match", endpoint := "/test", method := "GET",
    soap_action := none, mock_response := some mockW, route := none }

/-- Witness fixture: a later endpoint whose pattern also matches. -/
def epLater : EndpointConfiguration :=
  { id := "ep-later", endpoint := "/test", method := "GET",
    soap_action := none,
    mock_response := some { response := some "{}", status := 400, headers := [], delay := 0 },
    route := none }

/-- Witness fixture: endpoint whose pattern does not compile. -/
def epBadPattern : EndpointConfiguration :=
  { id := "ep-bad", endpoint := "(", method := "GET",
    soap_action := none, mock_response := some mockW, route := none }

/-- Witness fixture: matching endpoint with neither mock nor route. -/
def epBare : EndpointConfiguration :=
  { id := "ep-bare", endpoint := "/test", method := "GET",
    soap_action := none, mock_response := none, route := none }

/-- Witness fixture: a configured route target. -/
def routeW : RouteConfiguration := { endpoint := "http://127.0.0.1:9000/fallback" }

/-- Witness fixture: matching endpoint with a route but no mock. -/
def epRouted : EndpointConfiguration :=
  { id := "ep-routed", endpoint := "/test", method := "GET",
    soap_action := none, mock_response := none, route := some routeW }

/-- Witness fixture: the request `GET /test`. -/
def reqW : HttpRequest := { path := "/test", method := "GET" }

/-- Witness fixture: server list for the first-match scenario. -/
def srvFirstMatch : ServerConfiguration :=
  { id := "srv-c1", name := "w", http_port := some 8082,
    endpoints := [epNoMatch, epMatch, epLater], https_config := none }

/-- Witness fixture: server whose second endpoint has a bad pattern and
whose third would match. -/
def srvBadPattern : ServerConfiguration :=
  { id := "srv-c3", name := "w", http_port := some 8082,
    endpoints := [epNoMatch, epBadPattern, epMatch], https_config := none }

/-- Witness fixture: server with no matching endpoint for `reqW`. -/
def srvNoMatch : ServerConfiguration :=
  { id := "srv-c5a", name := "w", http_port := some 8080,
    endpoints := [epNoMatch], https_config := none }

/-- Witness fixture: server whose first match is the bare endpoint. -/
def srvBare : ServerConfiguration :=
  { id := "srv-c5b", name := "w", http_port := some 8080,
    endpoints := [epNoMatch, epBare], https_config := none }

/-- Witness fixture: server whose first match carries only a route. -/
def srvRouted : ServerConfiguration :=
  { id := "srv-c10", name := "w", http_port := some 8080,
    endpoints := [epNoMatch, epRouted], https_config := none }

/-- Witness fixture: server whose first match carries the invalid-status
mock. -/
def srvInvalidStatus : ServerConfiguration :=
  { id := "srv-c4", name := "w", http_port := some 8080,
    endpoints := [epNoMatch, invalidStatusEndpoint], https_config := none }

/-- Witness fixture: server used for the sleep-trace scenario. -/
def srvSleep : ServerConfiguration :=
  { id := "srv-c9", name := "w", http_port := some 8080,
    endpoints := [epNoMatch, epMatch], https_config := none }

/-- C1 witness: on `GET /test` against `[epNoMatch, epMatch, epLater]`,
where `epLater` would also match, the handler answers from `epMatch`. -/
theorem request_handler_first_match_witness :
    is_valid_endpoint literalRegexEngine reqW epMatch = .ok true ∧
    is_valid_endpoint literalRegexEngine reqW epLater = .ok true ∧
    request_handler literalRegexEngine srvFirstMatch reqW =
      ([{ kind := .threadBlocking, millis := 1000 }],
        { status := 200, headers := [("content-type", "application/json")], body := "{}" }) :=
  ⟨by decide, by decide,
    request_handler_first_match literalRegexEngine reqW [epNoMatch] epMatch
      (by decide) (by decide) [epLater] srvFirstMatch rfl⟩

/-- C2 witness: with the literal engine, the pattern `/test` compiles, and
on the request path `/api/test/sub` (a proper superstring of the pattern)
the matcher accepts exactly per the anywhere-match-and-equal-method
characterization. -/
theorem is_valid_endpoint_iff_witness :
    literalRegexEngine.valid epMatch.endpoint = true ∧
    (is_valid_endpoint literalRegexEngine { path := "/api/test/sub", method := "GET" } epMatch
        = .ok true ↔
      (literalRegexEngine.isMatch epMatch.endpoint "/api/test/sub" = true ∧
        "GET" = epMatch.method)) :=
  ⟨by decide,
    is_valid_endpoint_iff literalRegexEngine { path := "/api/test/sub", method := "GET" }
      epMatch (by decide)⟩

/-- C3 witness: the unbalanced pattern `(` makes the matcher return an
error value and the handler answer 503 with the error text, even though a
later endpoint in the list would match. -/
theorem request_handler_invalid_pattern_witness :
    is_valid_endpoint literalRegexEngine reqW epBadPattern =
      .error (.ConfigurationError "regex parse error: unclosed group") ∧
    request_handler literalRegexEngine srvBadPattern reqW =
      ([], { status := 503, headers := [],
             body := "Configuration error: regex parse error: unclosed group" }) := by
  have h := request_handler_invalid_pattern literalRegexEngine reqW [epNoMatch]
    epBadPattern (by decide) (by decide)
  exact ⟨h.1, h.2 [epMatch] srvBadPattern rfl⟩

/-- C4 witness (amended claim): the out-of-range status 99 makes response
building fail with a configuration error and the served response is 501
"Not implemented". -/
theorem request_handler_invalid_status_witness :
    generate_mock_response invalidStatusMock =
      .error (.ConfigurationError "invalid status code") ∧
    (request_handler literalRegexEngine srvInvalidStatus reqW).2 =
      notImplementedResponse := by
  have h := request_handler_invalid_status literalRegexEngine reqW [epNoMatch]
    invalidStatusEndpoint invalidStatusMock (by decide) (by decide) rfl (by decide)
  exact ⟨h.1, h.2 [] srvInvalidStatus rfl⟩

/-- C5 witness: `GET /test` against a server with no matching endpoint, and
against a server whose first match has neither mock nor route, both yield
exactly 501 "Not implemented". -/
theorem request_handler_501_fallbacks_witness :
    request_handler literalRegexEngine srvNoMatch reqW = ([], notImplementedResponse) ∧
    request_handler literalRegexEngine srvBare reqW = ([], notImplementedResponse) := by
  have h := request_handler_501_fallbacks literalRegexEngine reqW
  exact ⟨h.1 srvNoMatch (by decide),
    h.2 [epNoMatch] epBare (by decide) (by decide) rfl rfl [] srvBare rfl⟩

/-- C9 witness: the matched `epMatch` (delay 1000 ms) is served with
exactly one thread-blocking sleep of 1000 ms, in `handle_endpoint` and in
the full handler. -/
theorem handle_endpoint_blocking_sleep_witness :
    (handle_endpoint epMatch).1 =
      [{ kind := SleepKind.threadBlocking, millis := 1000 }] ∧
    (request_handler literalRegexEngine srvSleep reqW).1 =
      [{ kind := SleepKind.threadBlocking, millis := 1000 }] := by
  have h := handle_endpoint_blocking_sleep epMatch mockW rfl
  exact ⟨h.1, h.2 literalRegexEngine reqW [epNoMatch] [] srvSleep rfl (by decide) (by decide)⟩

/-- C10 witness: a first match with only a route configured is answered
501 "Not implemented", and `handle_endpoint` gives the same result with the
route present or removed. -/
theorem request_handler_route_never_consulted_witness :
    handle_endpoint { epBare with route := some routeW } = handle_endpoint epBare ∧
    request_handler literalRegexEngine srvRouted reqW = ([], notImplementedResponse) := by
  have h := request_handler_route_never_consulted literalRegexEngine reqW [epNoMatch]
    epRouted routeW (by decide) (by decide) rfl rfl
  exact ⟨h.1 epBare (some routeW), h.2 [] srvRouted rfl⟩

/-- Witness fixture: network environment in which only port 8080 binds. -/
def envW : NetEnv :=
  { bindHttp := fun port => if port = 8080 then .ok ()
      else .error "Address already in use (os error 98)",
    bindTls := fun _ => .ok (),
    mozillaAcceptor := .ok (),
    setPrivateKeyFile := fun _ => .ok (),
    setCertificateChainFile := fun _ => .ok () }

/-- Witness fixture: network environment in which every call fails. -/
def envDown : NetEnv :=
  { bindHttp := fun _ => .error "network down",
    bindTls := fun _ => .error "network down",
    mozillaAcceptor := .error "network down",
    setPrivateKeyFile := fun _ => .error "network down",
    setCertificateChainFile := fun _ => .error "network down" }

/-- Witness fixture: HTTPS material for a TLS-only server. -/
def httpsW : HttpsConfiguration :=
  { server_certificate := "/tmp/server_cert.pem",
    private_key := "/tmp/server_key.pem", https_port := 8443 }

/-- Witness fixture: server with only an HTTP port, which binds. -/
def srvHttpOnly : ServerConfiguration :=
  { id := "srv-http", name := "h", http_port := some 8080,
    endpoints := [], https_config := none }

/-- Witness fixture: server with only a TLS configuration. -/
def srvTlsOnly : ServerConfiguration :=
  { id := "srv-tls", name := "t", http_port := none,
    endpoints := [], https_config := some httpsW }

/-- Witness fixture: server whose HTTP port fails to bind in `envW`. -/
def srvBadPort : ServerConfiguration :=
  { id := "srv-bad", name := "b", http_port := some 9090,
    endpoints := [], https_config := none }

/-- C7 witness: in `envW`, a server without an HTTP port is an HTTP no-op
and one without TLS material is a TLS no-op, and in the list
`[srvHttpOnly, srvBadPort, srvTlsOnly]` the failing bind of the second
server becomes the immediate overall error. -/
theorem start_servers_fail_fast_witness :
    start_server_http envW srvTlsOnly = .ok () ∧
    start_server_https envW srvHttpOnly = .ok () ∧
    start_servers envW [srvHttpOnly, srvBadPort, srvTlsOnly] =
      .error (.ServerStartUpError "Address already in use (os error 98)") := by
  have h := start_servers_fail_fast envW
  exact ⟨h.1 srvTlsOnly rfl, h.2.1 srvHttpOnly rfl,
    h.2.2.2.2.1 [srvHttpOnly] srvBadPort [srvTlsOnly]
      (.ServerStartUpError "Address already in use (os error 98)")
      (by decide) (by decide)⟩

/-- Witness fixture: a first test whose id is not the one selected. -/
def testOther : TestConfiguration :=
  { id := "test-1", name := "first", description := "d", servers := [] }

/-- Witness fixture: the selected test. -/
def testSelected : TestConfiguration :=
  { id := "test-2", name := "second", description := "d", servers := [srvHttpOnly] }

/-- Witness fixture: application configuration holding both tests. -/
def configW : AppConfiguration :=
  { name := "cfg", description := "d", tests := [testOther, testSelected] }

/-- C8 witness: no id gives `MissingId`; the unknown id `nope` gives
`CouldNotFindTest` with the same outcome under a completely failing network
environment (so no listener was consulted); the id `test-2` selects
`testSelected`. -/
theorem start_daemon_selection_witness :
    start_daemon envW none configW = .error (.MissingId "Missing id") ∧
    get_test "nope" configW = .error (.CouldNotFindTest ("No test with id: " ++ "nope")) ∧
    start_daemon envW (some "nope") configW = start_daemon envDown (some "nope") configW ∧
    get_test "test-2" configW = .ok testSelected := by
  have h := start_daemon_selection envW envDown configW
  exact ⟨h.1, (h.2.1 "nope" (by decide)).1, (h.2.1 "nope" (by decide)).2.2,
    (h.2.2 "test-2" [testOther] testSelected [] rfl (by decide) (by decide)).1⟩

end Testit
